import Mathlib

/-!
Shallow embedding of the chunked browser-recording upload protocol of
`dictaite` (web backend, `src/dictaite/ui_web/app.py`), together with the
mime allow-list of `src/dictaite_core/services/stt.py`.

Bytes are modelled as lists of naturals; the global session table
`RECORDING_SESSIONS` and the per-session storage files under
`RECORDINGS_DIR` are modelled as association lists keyed by session id
(each session's file path is derived from its id in the source).  All
operations run under `RECORDING_LOCK` in the source, so each HTTP handler
is one atomic state transformer here.  Fallible OS calls (mkdir/open,
append-write, read_bytes) are Boolean oracle inputs; the external decoder
and the remote transcription/translation services are oracle outcomes.
-/

namespace Dictaite

abbrev Bytes := List Nat

/-- Python `str.strip()` on a character list. -/
def pyStripChars (cs : List Char) : List Char :=
  ((cs.dropWhile Char.isWhitespace).reverse.dropWhile Char.isWhitespace).reverse

/-- Python `str.strip()`. -/
def pyStrip (s : String) : String :=
  String.mk (pyStripChars s.toList)

/-- Python `str.lower()` (ASCII range, as relevant to mime types and modes). -/
def pyLower (s : String) : String :=
  String.mk (s.toList.map Char.toLower)

/-- Python `a or b` for strings (empty string is falsy). -/
def pyOrStr (a b : String) : String :=
  if a = "" then b else a

/-- Python `a or b` where `a` is an optional string (None and "" are falsy). -/
def pyOrOpt (a b : Option String) : Option String :=
  match a with
  | none => b
  | some s => if s = "" then b else some s

/-- Python `int(value)` on an optional form string: `None` raises `TypeError`,
a non-numeric string raises `ValueError`; whitespace and a sign are allowed. -/
def pyToInt (value : Option String) : Option Int :=
  match value with
  | none => none
  | some s =>
    let t := pyStripChars s.toList
    let signDigits : Int × List Char :=
      match t with
      | '-' :: rest => (-1, rest)
      | '+' :: rest => (1, rest)
      | _ => (1, t)
    if signDigits.2 ≠ [] ∧ signDigits.2.all Char.isDigit then
      some (signDigits.1 *
        (signDigits.2.foldl (fun acc c => acc * 10 + (c.toNat - 48)) (0 : Nat) : Nat))
    else none

/-- Python `int(q)` for a rational: truncation toward zero. -/
def pyTruncInt (q : Rat) : Int :=
  q.num.tdiv (q.den : Int)

/-- `ALLOWED_MIME_TYPES` from `dictaite_core/services/stt.py` (a set; only
membership is observed). -/
def ALLOWED_MIME_TYPES : List String :=
  ["audio/wav", "audio/x-wav", "audio/webm", "audio/ogg"]

/-- `MAX_AUDIO_DURATION_SECONDS` from `dictaite_core/services/stt.py`. -/
def MAX_AUDIO_DURATION_SECONDS : Nat := 120

/-- `_normalize_mime_type` from `app.py`: `str(value or "").strip().lower()`,
then everything before the first `;` (`split(";", 1)[0]`), stripped again. -/
def normalize_mime_type (value : Option String) : String :=
  let mimetype := pyLower (pyStrip (value.getD ""))
  if mimetype = "" then ""
  else if mimetype.toList.contains ';' then
    pyStrip (String.mk (mimetype.toList.takeWhile (fun c => c != ';')))
  else mimetype

/-- `_normalize_language` from `app.py`: `None`, `""` and `"default"` map to
`None`; anything else is kept. -/
def normalize_language (value : Option String) : Option String :=
  match value with
  | none => none
  | some s => if s = "" ∨ s = "default" then none else some s

/-- `RecordingSession` dataclass from `app.py` (the `path` field is replaced
by the id-keyed `files` map of `ServerState`). -/
structure RecordingSession where
  mime_type : String
  mode : String := "transcribe"
  language : Option String := none
  target_lang : Option String := none
  expected_seq : Int := 0
  chunk_count : Nat := 0
  total_bytes : Nat := 0
  created_at : Nat := 0
  finalizing : Bool := false
deriving DecidableEq

/-- Dictionary update `d[k] = v` on an association list. -/
def setKey {α : Type} (l : List (String × α)) (k : String) (v : α) :
    List (String × α) :=
  (k, v) :: l.filter (fun p => p.1 != k)

/-- Dictionary removal `d.pop(k, None)` on an association list (the lookup
is performed separately). -/
def eraseKey {α : Type} (l : List (String × α)) (k : String) :
    List (String × α) :=
  l.filter (fun p => p.1 != k)

/-- The server's mutable state: `RECORDING_SESSIONS` and the contents of the
per-session recording files. -/
structure ServerState where
  sessions : List (String × RecordingSession)
  files : List (String × Bytes)
deriving DecidableEq

/-- The error envelope produced by `json_error(code, message, status)`. -/
structure ApiError where
  code : String
  message : String
  status : Nat
deriving DecidableEq

/-- Request payload of `POST /api/record/start`. -/
structure StartPayload where
  mime_type : Option String := none
  mode : Option String := none
  language : Option String := none
  target_lang : Option String := none
deriving DecidableEq

/-- `api_record_start` from `app.py`.  `session_id` stands for the fresh
`uuid4().hex`; `fsOk` is false when `mkdir`/`open` raise `OSError`;
`now` stands for `time.time()`. -/
def api_record_start (st : ServerState) (payload : StartPayload)
    (session_id : String) (fsOk : Bool) (now : Nat) :
    Except ApiError (String × String) × ServerState :=
  let mime_type := pyOrStr (normalize_mime_type payload.mime_type) "audio/webm"
  let mode0 := pyLower (pyOrStr (payload.mode.getD "") "transcribe")
  let mode := if mode0 = "transcribe" ∨ mode0 = "translate" then mode0 else "transcribe"
  let language := normalize_language payload.language
  let target_lang := normalize_language payload.target_lang
  if mime_type ∉ ALLOWED_MIME_TYPES then
    (.error ⟨"unsupported_type", "Unsupported audio type: " ++ mime_type, 400⟩, st)
  else if ¬ fsOk then
    (.error ⟨"storage_unavailable", "Unable to initialise recording session", 500⟩, st)
  else
    let session : RecordingSession :=
      { mime_type := mime_type, mode := mode, language := language,
        target_lang := target_lang, created_at := now }
    (.ok (session_id, mode),
     { sessions := setKey st.sessions session_id session,
       files := setKey st.files session_id [] })

/-- Request data of `POST /api/record/append`: the `session_id` and `seq`
form fields and the uploaded `chunk` file (already read to bytes). -/
structure AppendInput where
  session_id : Option String := none
  chunk : Option Bytes := none
  seq_value : Option String := none
deriving DecidableEq

/-- `api_record_append` from `app.py`.  `writeOk` is false when the
append-write to the session file raises `OSError`. -/
def api_record_append (st : ServerState) (inp : AppendInput) (writeOk : Bool) :
    Except ApiError Int × ServerState :=
  let session_id := pyStrip (inp.session_id.getD "")
  if session_id = "" then
    (.error ⟨"missing_session", "Missing session identifier", 400⟩, st)
  else
    match inp.chunk with
    | none => (.error ⟨"missing_chunk", "Missing audio chunk upload", 400⟩, st)
    | some data =>
      match pyToInt inp.seq_value with
      | none => (.error ⟨"invalid_sequence", "Chunk sequence must be an integer", 400⟩, st)
      | some seq =>
        if data = [] then
          (.error ⟨"empty_chunk", "Uploaded chunk was empty", 400⟩, st)
        else
          match st.sessions.lookup session_id with
          | none => (.error ⟨"unknown_session", "Unknown recording session", 404⟩, st)
          | some session =>
            if seq ≠ session.expected_seq then
              (.error ⟨"out_of_order",
                "Expected chunk " ++ toString session.expected_seq ++
                  ", received " ++ toString seq, 409⟩, st)
            else if ¬ writeOk then
              (.error ⟨"write_failed", "Could not persist audio chunk", 500⟩, st)
            else
              let session' := { session with
                expected_seq := session.expected_seq + 1,
                chunk_count := session.chunk_count + 1,
                total_bytes := session.total_bytes + data.length }
              (.ok (seq + 1),
               { sessions := setKey st.sessions session_id session',
                 files := setKey st.files session_id
                   (((st.files.lookup session_id).getD []) ++ data) })

/-- Acknowledgement shapes of `POST /api/record/cancel`:
`{ok: true}` and `{ok: true, status: "not_found"}`. -/
inductive CancelAck where
  | removed
  | notFound
deriving DecidableEq

/-- Session-id resolution in `cancel`: the first truthy of the JSON payload
value, the query-string value and the form value, each stripped. -/
def cancelSessionId (payloadSessionId argSessionId formSessionId : Option String) :
    String :=
  pyOrStr (pyStrip (payloadSessionId.getD ""))
    (pyOrStr (pyStrip (argSessionId.getD "")) (pyStrip (formSessionId.getD "")))

/-- `api_record_cancel` from `app.py`. -/
def api_record_cancel (st : ServerState)
    (payloadSessionId argSessionId formSessionId : Option String) :
    Except ApiError CancelAck × ServerState :=
  let session_id := cancelSessionId payloadSessionId argSessionId formSessionId
  if session_id = "" then
    (.error ⟨"missing_session", "Missing session identifier", 400⟩, st)
  else
    match st.sessions.lookup session_id with
    | none => (.ok .notFound, st)
    | some _ =>
      (.ok .removed,
       { sessions := eraseKey st.sessions session_id,
         files := eraseKey st.files session_id })

/-- Outcome of the external decode of the assembled bytes:
`prepare_wav` plus `sf.SoundFile` in `_duration_seconds` — a loaded WAV is
observed through its frame count and sample rate, a `TranscriptionError`
from `prepare_wav` carries a message, and any other exception is generic. -/
inductive DecodeOutcome where
  | ok (frames samplerate : Nat)
  | transcriptionError (msg : String)
  | otherError
deriving DecidableEq

/-- `_duration_seconds` from `app.py`: `frames / (samplerate or 1)`. -/
def duration_seconds (frames samplerate : Nat) : Rat :=
  (frames : Rat) / ((if samplerate = 0 then 1 else samplerate : Nat) : Rat)

/-- Result of `_prepare_wav_and_duration`. -/
inductive PrepOutcome where
  | ok (duration : Rat)
  | transcriptionError (msg : String)
  | otherError
deriving DecidableEq

/-- `_prepare_wav_and_duration` from `app.py`: decode, compute the duration,
and raise `TranscriptionError("Audio duration exceeds the 2 minute limit")`
when it exceeds `MAX_AUDIO_DURATION_SECONDS`. -/
def prepare_wav_and_duration (dec : DecodeOutcome) : PrepOutcome :=
  match dec with
  | .ok frames samplerate =>
    let d := duration_seconds frames samplerate
    if d > (MAX_AUDIO_DURATION_SECONDS : Rat) then
      .transcriptionError "Audio duration exceeds the 2 minute limit"
    else .ok d
  | .transcriptionError msg => .transcriptionError msg
  | .otherError => .otherError

/-- Outcome of the remote `transcribe` call inside `_run_transcription`:
success, a `TranscriptionError`, or any other exception. -/
inductive TranscribeOutcome where
  | ok (text : String)
  | transcriptionError (msg : String)
  | otherError (msg : String)
deriving DecidableEq

/-- Outcome of the remote `translate` call. -/
inductive TranslateOutcome where
  | ok (text : String)
  | error (msg : String)
deriving DecidableEq

/-- The oracle inputs of one `finalize` request: the `read_bytes` OS call and
the three external operations, in the order the handler reaches them. -/
structure FinalizeOracle where
  readOk : Bool := true
  decode : DecodeOutcome
  transcription : TranscribeOutcome
  translation : TranslateOutcome
deriving DecidableEq

/-- Request payload of `POST /api/record/finalize`. -/
structure FinalizePayload where
  session_id : Option String := none
  mode : Option String := none
  language : Option String := none
  target_lang : Option String := none
deriving DecidableEq

/-- The success payload of `finalize`:
`{session_id, mode, text, durationMs, translatedText?}`. -/
structure FinalizeSuccess where
  session_id : String
  mode : String
  text : String
  durationMs : Int
  translatedText : Option String
deriving DecidableEq

instance exceptDecEq {ε α : Type} [DecidableEq ε] [DecidableEq α] :
    DecidableEq (Except ε α)
  | .error a, .error b =>
    if h : a = b then .isTrue (by rw [h])
    else .isFalse (by intro hc; cases hc; exact h rfl)
  | .error _, .ok _ => .isFalse (by intro h; cases h)
  | .ok _, .error _ => .isFalse (by intro h; cases h)
  | .ok a, .ok b =>
    if h : a = b then .isTrue (by rw [h])
    else .isFalse (by intro hc; cases hc; exact h rfl)

/-- Full observable outcome of one `finalize` request: the HTTP-level result,
the server state after the request, and whether the remote transcription and
translation services were invoked. -/
structure FinalizeOutput where
  result : Except ApiError FinalizeSuccess
  state : ServerState
  calledTranscribe : Bool
  calledTranslate : Bool
deriving DecidableEq

/-- The `fail(..., cleanup=True)` path and the success teardown of
`finalize`: `_cleanup_recording_file` plus popping the session. -/
def cleanupStateOf (st : ServerState) (session_id : String) : ServerState :=
  { sessions := eraseKey st.sessions session_id,
    files := eraseKey st.files session_id }

/-- The `fail(..., cleanup=False)` path of `finalize`: the session is kept
and its `finalizing` flag is reset to `False`; storage is untouched. -/
def preserveStateOf (st : ServerState) (session_id : String)
    (session : RecordingSession) : ServerState :=
  { st with sessions := setKey st.sessions session_id { session with finalizing := false } }

/-- The guarded prologue of `api_record_finalize` (the first
`RECORDING_LOCK` block): resolve the session id, look the session up,
reject when `finalizing` is already set, otherwise set `finalizing = True`
in the store before any decoding or remote call. -/
def finalizeGuard (st : ServerState) (payload : FinalizePayload) :
    Except ApiError (String × RecordingSession × ServerState) :=
  let session_id := pyStrip (payload.session_id.getD "")
  if session_id = "" then
    .error ⟨"missing_session", "Missing session identifier", 400⟩
  else
    match st.sessions.lookup session_id with
    | none => .error ⟨"unknown_session", "Unknown recording session", 404⟩
    | some session =>
      if session.finalizing then
        .error ⟨"already_finalizing", "Recording session is already being processed", 409⟩
      else
        let session' := { session with finalizing := true }
        .ok (session_id, session',
             { st with sessions := setKey st.sessions session_id session' })

/-- Mode resolution in `finalize`:
`str(payload.get("mode") or session.mode or "transcribe").lower()`, replaced
by `"transcribe"` when outside the two valid modes. -/
def resolveMode (payloadMode : Option String) (sessionMode : String) : String :=
  let mode0 := pyLower (pyOrStr (payloadMode.getD "") (pyOrStr sessionMode "transcribe"))
  if mode0 = "transcribe" ∨ mode0 = "translate" then mode0 else "transcribe"

/-- Target-language resolution in `finalize`:
`target_lang = _normalize_language(payload.get("target_lang")) or session.target_lang`,
then `code = target_lang or settings.default_target_language`. -/
def resolveTargetCode (payloadTarget sessionTarget : Option String)
    (settingsDefault : String) : String :=
  match pyOrOpt (normalize_language payloadTarget) sessionTarget with
  | some t => if t = "" then settingsDefault else t
  | none => settingsDefault

/-- The body of `api_record_finalize` after the guard has marked the session
as finalizing.  `settingsDefaultTarget` is
`current_settings().default_target_language`.  The resolved language hint
only feeds the oracle-modelled `transcribe` call. -/
def finalizeBody (st : ServerState) (session_id : String)
    (session : RecordingSession) (payload : FinalizePayload)
    (settingsDefaultTarget : String) (oracle : FinalizeOracle) : FinalizeOutput :=
  if session.chunk_count = 0 ∨ session.total_bytes = 0 then
    ⟨.error ⟨"empty_recording", "No audio data was received", 400⟩,
     cleanupStateOf st session_id, false, false⟩
  else
    let mode := resolveMode payload.mode session.mode
    if ¬ oracle.readOk then
      ⟨.error ⟨"missing_file", "Recording data was not found on the server", 500⟩,
       cleanupStateOf st session_id, false, false⟩
    else
      let raw_data := (st.files.lookup session_id).getD []
      if raw_data = [] then
        ⟨.error ⟨"empty_recording", "No audio data was received", 400⟩,
         cleanupStateOf st session_id, false, false⟩
      else
        match prepare_wav_and_duration oracle.decode with
        | .transcriptionError msg =>
          ⟨.error ⟨"invalid_audio", msg, 400⟩, cleanupStateOf st session_id, false, false⟩
        | .otherError =>
          ⟨.error ⟨"decode_error", "Could not decode the recorded audio", 500⟩,
           cleanupStateOf st session_id, false, false⟩
        | .ok duration =>
          match oracle.transcription with
          | .transcriptionError msg =>
            ⟨.error ⟨"transcription_failed", msg, 400⟩,
             cleanupStateOf st session_id, true, false⟩
          | .otherError msg =>
            ⟨.error ⟨"transcription_failed", msg, 502⟩,
             preserveStateOf st session_id session, true, false⟩
          | .ok transcript =>
            if mode = "translate" then
              let code := resolveTargetCode payload.target_lang session.target_lang
                settingsDefaultTarget
              if code = "" then
                ⟨.ok ⟨session_id, mode, transcript, pyTruncInt (duration * 1000), none⟩,
                 cleanupStateOf st session_id, true, false⟩
              else
                match oracle.translation with
                | .error msg =>
                  ⟨.error ⟨"translation_failed", msg, 502⟩,
                   preserveStateOf st session_id session, true, true⟩
                | .ok translated =>
                  ⟨.ok ⟨session_id, mode, transcript, pyTruncInt (duration * 1000),
                        some translated⟩,
                   cleanupStateOf st session_id, true, true⟩
            else
              ⟨.ok ⟨session_id, mode, transcript, pyTruncInt (duration * 1000), none⟩,
               cleanupStateOf st session_id, true, false⟩

/-- `api_record_finalize` from `app.py`: the guarded prologue followed by the
processing body. -/
def api_record_finalize (st : ServerState) (payload : FinalizePayload)
    (settingsDefaultTarget : String) (oracle : FinalizeOracle) : FinalizeOutput :=
  match finalizeGuard st payload with
  | .error e => ⟨.error e, st, false, false⟩
  | .ok (session_id, session, st') =>
    finalizeBody st' session_id session payload settingsDefaultTarget oracle

/-- A fresh recording session, as built by `api_record_start` for a
`audio/webm` upload; used by concrete witnesses. -/
def sessW : RecordingSession :=
  { mime_type := "audio/webm" }

/-- A concrete one-session server state used by concrete witnesses. -/
def stW : ServerState :=
  ⟨[("A", sessW)], [("A", [])]⟩

/-- A session that has received one chunk of one byte; used by concrete
finalize witnesses. -/
def sessF : RecordingSession :=
  { mime_type := "audio/webm", expected_seq := 1, chunk_count := 1, total_bytes := 1 }

/-- A concrete state whose single session holds one stored byte. -/
def stF : ServerState :=
  ⟨[("A", sessF)], [("A", [9])]⟩

/-! ## Association-list lemmas -/

theorem lookup_eraseKey_self {α : Type} (l : List (String × α)) (k : String) :
    (eraseKey l k).lookup k = none := by
  induction l with
  | nil => rfl
  | cons p t ih =>
    by_cases hp : p.1 = k
    · simpa [eraseKey, List.filter, hp] using ih
    · have hb : (p.1 != k) = true := by simpa using hp
      have hk : (k == p.1) = false := by
        simpa using fun h => hp h.symm
      simpa [eraseKey, List.filter, hb, List.lookup, hk] using ih

theorem lookup_eraseKey_ne {α : Type} (l : List (String × α)) (k k' : String)
    (h : k' ≠ k) : (eraseKey l k).lookup k' = l.lookup k' := by
  induction l with
  | nil => rfl
  | cons p t ih =>
    by_cases hp : p.1 = k
    · have hk : (k' == p.1) = false := by
        simpa using fun hq => h (hq.trans hp)
      have hk2 : (k' == k) = false := by simpa using h
      simpa [eraseKey, List.filter, hp, List.lookup, hk, hk2] using ih
    · have hb : (p.1 != k) = true := by simpa using hp
      by_cases hk : k' = p.1
      · simp [eraseKey, List.filter, hb, List.lookup, hk]
      · have hk' : (k' == p.1) = false := by simpa using hk
        simpa [eraseKey, List.filter, hb, List.lookup, hk'] using ih

theorem lookup_setKey_self {α : Type} (l : List (String × α)) (k : String) (v : α) :
    (setKey l k v).lookup k = some v := by
  simp [setKey, List.lookup]

theorem lookup_setKey_ne {α : Type} (l : List (String × α)) (k k' : String) (v : α)
    (h : k' ≠ k) : (setKey l k v).lookup k' = l.lookup k' := by
  have hk : (k' == k) = false := by simpa using h
  simpa [setKey, List.lookup, hk] using lookup_eraseKey_ne l k k' h

/-! ## Claims -/

/-- C1: on an existing session (with a present, non-empty chunk and a
parseable sequence, and a healthy write path), an append succeeds if and
only if the given sequence equals the session's current `expected_seq`; on
success the chunk bytes are appended to the session's storage, the
`expected_seq` and `chunk_count` counters each grow by exactly 1,
`total_bytes` grows by the chunk length, and the returned `next_seq` is
`seq + 1`; any other sequence value is rejected with the out-of-order
conflict (409) and the state — counters and storage included — is
completely unchanged. -/
theorem C1_append_ordering
    (st : ServerState) (sid seqv : String) (data : Bytes)
    (session : RecordingSession) (seq : Int)
    (htrim : pyStrip sid = sid) (hne : sid ≠ "") (hdata : data ≠ [])
    (hseqv : pyToInt (some seqv) = some seq)
    (hsess : st.sessions.lookup sid = some session) :
    ((∃ v, (api_record_append st ⟨some sid, some data, some seqv⟩ true).1 = .ok v)
        ↔ seq = session.expected_seq)
    ∧ (seq = session.expected_seq →
        api_record_append st ⟨some sid, some data, some seqv⟩ true =
          (.ok (seq + 1),
           { sessions := setKey st.sessions sid { session with
               expected_seq := session.expected_seq + 1,
               chunk_count := session.chunk_count + 1,
               total_bytes := session.total_bytes + data.length },
             files := setKey st.files sid (((st.files.lookup sid).getD []) ++ data) }))
    ∧ (seq ≠ session.expected_seq →
        api_record_append st ⟨some sid, some data, some seqv⟩ true =
          (.error ⟨"out_of_order",
            "Expected chunk " ++ toString session.expected_seq ++
              ", received " ++ toString seq, 409⟩, st)) := by
  by_cases hseq : seq = session.expected_seq <;>
    simp [api_record_append, hseqv, hsess, htrim, hne, hdata, hseq]

/-- Witness for `C1_append_ordering` at a one-session state with
`expected_seq = 0` and a two-byte chunk sent as `seq = "0"`. -/
theorem C1_append_ordering_witness :
    (pyStrip "A" = "A" ∧ "A" ≠ "" ∧ ([7, 8] : Bytes) ≠ []
      ∧ pyToInt (some "0") = some 0 ∧ stW.sessions.lookup "A" = some sessW)
    ∧ (((∃ v, (api_record_append stW ⟨some "A", some [7, 8], some "0"⟩ true).1 = .ok v)
          ↔ (0 : Int) = sessW.expected_seq)
      ∧ ((0 : Int) = sessW.expected_seq →
          api_record_append stW ⟨some "A", some [7, 8], some "0"⟩ true =
            (.ok (0 + 1),
             { sessions := setKey stW.sessions "A" { sessW with
                 expected_seq := sessW.expected_seq + 1,
                 chunk_count := sessW.chunk_count + 1,
                 total_bytes := sessW.total_bytes + ([7, 8] : Bytes).length },
               files := setKey stW.files "A" (((stW.files.lookup "A").getD []) ++ [7, 8]) }))
      ∧ ((0 : Int) ≠ sessW.expected_seq →
          api_record_append stW ⟨some "A", some [7, 8], some "0"⟩ true =
            (.error ⟨"out_of_order",
              "Expected chunk " ++ toString sessW.expected_seq ++
                ", received " ++ toString (0 : Int), 409⟩, stW))) :=
  ⟨⟨by decide, by decide, by decide, by decide, by decide⟩,
   C1_append_ordering stW "A" "0" [7, 8] sessW 0
     (by decide) (by decide) (by decide) (by decide) (by decide)⟩

/-- C8 counterexample: with an empty store (the session id `sess1` is
absent), an append carrying an empty chunk is rejected as `empty_chunk`
(400) and an append whose sequence does not parse is rejected as
`invalid_sequence` (400) — neither yields `unknown_session` (404), so the
session-existence check does not precede the empty-chunk and
sequence-validity checks. -/
theorem C8_counterexample :
    (⟨[], []⟩ : ServerState).sessions.lookup "sess1" = none
    ∧ (api_record_append ⟨[], []⟩ ⟨some "sess1", some [], some "0"⟩ true).1 =
        .error ⟨"empty_chunk", "Uploaded chunk was empty", 400⟩
    ∧ (api_record_append ⟨[], []⟩ ⟨some "sess1", some [1], some "x"⟩ true).1 =
        .error ⟨"invalid_sequence", "Chunk sequence must be an integer", 400⟩
    ∧ (api_record_append ⟨[], []⟩ ⟨some "sess1", some [], some "0"⟩ true).1 ≠
        .error ⟨"unknown_session", "Unknown recording session", 404⟩ := by
  decide

/-- C8 (amended): an append whose chunk is present and non-empty and whose
sequence parses as an integer, but whose session id is absent from the
store, fails with `unknown_session` (404) regardless of the sequence value
and leaves the state unchanged; the existence check precedes the
sequence-equality check but follows the missing-chunk, sequence-parse and
empty-chunk checks. -/
theorem C8_unknown_session_append
    (st : ServerState) (sid seqv : String) (data : Bytes) (seq : Int)
    (writeOk : Bool)
    (htrim : pyStrip sid = sid) (hne : sid ≠ "") (hdata : data ≠ [])
    (hseqv : pyToInt (some seqv) = some seq)
    (habs : st.sessions.lookup sid = none) :
    api_record_append st ⟨some sid, some data, some seqv⟩ writeOk =
      (.error ⟨"unknown_session", "Unknown recording session", 404⟩, st) := by
  simp [api_record_append, hseqv, habs, htrim, hne, hdata]

/-- Witness for `C8_unknown_session_append`: empty store, one-byte chunk,
sequence `"5"`. -/
theorem C8_unknown_session_append_witness :
    (pyStrip "sess1" = "sess1" ∧ "sess1" ≠ "" ∧ ([1] : Bytes) ≠ []
      ∧ pyToInt (some "5") = some 5
      ∧ (⟨[], []⟩ : ServerState).sessions.lookup "sess1" = none)
    ∧ api_record_append ⟨[], []⟩ ⟨some "sess1", some [1], some "5"⟩ true =
        (.error ⟨"unknown_session", "Unknown recording session", 404⟩, ⟨[], []⟩) :=
  ⟨⟨by decide, by decide, by decide, by decide, by decide⟩,
   C8_unknown_session_append ⟨[], []⟩ "sess1" "5" [1] 5 true
     (by decide) (by decide) (by decide) (by decide) (by decide)⟩

/-- C6: a cancel that resolves a non-empty session id always succeeds with
an `ok` acknowledgement (never an error status): if the session exists its
storage is deleted and it is removed from the store; if it does not exist
the call still returns ok with the not-found acknowledgement and the state
is untouched; and cancel composed with cancel leaves the same state as a
single cancel. -/
theorem C6_cancel_idempotent
    (st : ServerState) (p a f : Option String) (sid : String)
    (hsid : cancelSessionId p a f = sid) (hne : sid ≠ "") :
    (∃ ack, (api_record_cancel st p a f).1 = .ok ack)
    ∧ (∀ session, st.sessions.lookup sid = some session →
        (api_record_cancel st p a f).1 = .ok .removed
        ∧ (api_record_cancel st p a f).2.sessions.lookup sid = none
        ∧ (api_record_cancel st p a f).2.files.lookup sid = none)
    ∧ (st.sessions.lookup sid = none →
        api_record_cancel st p a f = (.ok .notFound, st))
    ∧ (api_record_cancel (api_record_cancel st p a f).2 p a f).2 =
        (api_record_cancel st p a f).2 := by
  rcases Option.eq_none_or_eq_some (st.sessions.lookup sid) with hlook | ⟨session, hlook⟩
  · refine ⟨⟨.notFound, ?_⟩, ?_, ?_, ?_⟩ <;>
      simp [api_record_cancel, hsid, hne, hlook]
  · have hcancel : api_record_cancel st p a f =
        (.ok .removed,
         ⟨eraseKey st.sessions sid, eraseKey st.files sid⟩) := by
      simp [api_record_cancel, hsid, hne, hlook]
    have herase : (eraseKey st.sessions sid).lookup sid = none :=
      lookup_eraseKey_self st.sessions sid
    refine ⟨⟨.removed, by simp [hcancel]⟩, ?_, ?_, ?_⟩
    · intro s _
      refine ⟨by simp [hcancel], ?_, ?_⟩
      · simp [hcancel, herase]
      · simp [hcancel, lookup_eraseKey_self]
    · intro hnone; rw [hnone] at hlook; cases hlook
    · rw [hcancel]
      simp [api_record_cancel, hsid, hne, herase]

/-- Witness for `C6_cancel_idempotent`: a one-session state canceled through
the JSON payload field. -/
theorem C6_cancel_idempotent_witness :
    (cancelSessionId (some "A") none none = "A" ∧ "A" ≠ "")
    ∧ ((∃ ack, (api_record_cancel stW (some "A") none none).1 = .ok ack)
      ∧ (∀ session, stW.sessions.lookup "A" = some session →
          (api_record_cancel stW (some "A") none none).1 = .ok .removed
          ∧ (api_record_cancel stW (some "A") none none).2.sessions.lookup "A" = none
          ∧ (api_record_cancel stW (some "A") none none).2.files.lookup "A" = none)
      ∧ (stW.sessions.lookup "A" = none →
          api_record_cancel stW (some "A") none none = (.ok .notFound, stW))
      ∧ (api_record_cancel (api_record_cancel stW (some "A") none none).2
            (some "A") none none).2 =
          (api_record_cancel stW (some "A") none none).2) :=
  ⟨⟨by decide, by decide⟩,
   C6_cancel_idempotent stW (some "A") none none "A" (by decide) (by decide)⟩

/-- A start call whose effective (webm-defaulted) mime type is allowed,
on a healthy storage path and a fresh id, creates exactly one new session
with empty storage and the zero-initialised counters. -/
theorem start_creates_session (st : ServerState) (payload : StartPayload)
    (sid : String) (now : Nat)
    (hmem : pyOrStr (normalize_mime_type payload.mime_type) "audio/webm" ∈ ALLOWED_MIME_TYPES)
    (_hfresh : st.sessions.lookup sid = none) :
    ∃ mode,
      (api_record_start st payload sid true now).1 = .ok (sid, mode)
      ∧ ((api_record_start st payload sid true now).2).sessions.lookup sid =
          some { mime_type := pyOrStr (normalize_mime_type payload.mime_type) "audio/webm",
                 mode := mode,
                 language := normalize_language payload.language,
                 target_lang := normalize_language payload.target_lang,
                 created_at := now }
      ∧ ((api_record_start st payload sid true now).2).files.lookup sid = some []
      ∧ ∀ k, k ≠ sid →
          ((api_record_start st payload sid true now).2).sessions.lookup k =
              st.sessions.lookup k
          ∧ ((api_record_start st payload sid true now).2).files.lookup k =
              st.files.lookup k := by
  refine ⟨if pyLower (pyOrStr (payload.mode.getD "") "transcribe") = "transcribe"
            ∨ pyLower (pyOrStr (payload.mode.getD "") "transcribe") = "translate"
          then pyLower (pyOrStr (payload.mode.getD "") "transcribe")
          else "transcribe", ?_, ?_, ?_, ?_⟩ <;>
    simp [api_record_start, hmem, lookup_setKey_self]
  intro k hk
  simp [api_record_start, hmem, lookup_setKey_ne _ _ _ _ hk]

/-- C5 counterexample: the mime type `";"` normalizes (lowercase, strip,
drop `;`-parameters) to `""`, which is not a member of the allow-list, yet
the start call does not fail with `unsupported_type`: it creates a session
(the empty normalization silently defaults to `audio/webm`). -/
theorem C5_counterexample :
    normalize_mime_type (some ";") = ""
    ∧ "" ∉ ALLOWED_MIME_TYPES
    ∧ (api_record_start ⟨[], []⟩ ⟨some ";", none, none, none⟩ "s1" true 0).1 =
        .ok ("s1", "transcribe")
    ∧ ((api_record_start ⟨[], []⟩ ⟨some ";", none, none, none⟩ "s1" true 0).2).sessions.lookup "s1" ≠ none := by
  decide

/-- C5 (amended): a start call whose mime type normalizes to a NON-EMPTY
string outside the allow-list {audio/wav, audio/x-wav, audio/webm,
audio/ogg} fails with `unsupported_type` (400) and leaves the store and
the backing storage unchanged; when the (possibly webm-defaulted) mime
type is allowed and storage initialisation succeeds, exactly one new
session is created, with empty storage and `expected_seq = 0`, leaving
every other session untouched. -/
theorem C5_mime_allowlist
    (st : ServerState) (payload : StartPayload) (sid : String) (now : Nat)
    (n : String) (hn : normalize_mime_type payload.mime_type = n) :
    (n ≠ "" ∧ n ∉ ALLOWED_MIME_TYPES →
      api_record_start st payload sid true now =
        (.error ⟨"unsupported_type", "Unsupported audio type: " ++ n, 400⟩, st))
    ∧ (pyOrStr n "audio/webm" ∈ ALLOWED_MIME_TYPES → st.sessions.lookup sid = none →
        ∃ mode,
          (api_record_start st payload sid true now).1 = .ok (sid, mode)
          ∧ ((api_record_start st payload sid true now).2).sessions.lookup sid =
              some { mime_type := pyOrStr n "audio/webm", mode := mode,
                     language := normalize_language payload.language,
                     target_lang := normalize_language payload.target_lang,
                     created_at := now }
          ∧ ((api_record_start st payload sid true now).2).files.lookup sid = some []
          ∧ ∀ k, k ≠ sid →
              ((api_record_start st payload sid true now).2).sessions.lookup k =
                  st.sessions.lookup k
              ∧ ((api_record_start st payload sid true now).2).files.lookup k =
                  st.files.lookup k) := by
  subst hn
  constructor
  · rintro ⟨hne, hnot⟩
    have : pyOrStr (normalize_mime_type payload.mime_type) "audio/webm" =
        normalize_mime_type payload.mime_type := by simp [pyOrStr, hne]
    simp [api_record_start, this, hnot]
  · exact start_creates_session st payload sid now

/-- Witness for `C5_mime_allowlist`: the rejected mime type `audio/mp4`
(with parameters and mixed case) on the empty store. -/
theorem C5_mime_allowlist_witness :
    (normalize_mime_type (some "Audio/MP4;codecs=avc") = "audio/mp4")
    ∧ (("audio/mp4" ≠ "" ∧ "audio/mp4" ∉ ALLOWED_MIME_TYPES →
        api_record_start ⟨[], []⟩ ⟨some "Audio/MP4;codecs=avc", none, none, none⟩ "s1" true 0 =
          (.error ⟨"unsupported_type", "Unsupported audio type: " ++ "audio/mp4", 400⟩,
           ⟨[], []⟩))
      ∧ (pyOrStr "audio/mp4" "audio/webm" ∈ ALLOWED_MIME_TYPES →
          (⟨[], []⟩ : ServerState).sessions.lookup "s1" = none →
          ∃ mode,
            (api_record_start ⟨[], []⟩ ⟨some "Audio/MP4;codecs=avc", none, none, none⟩ "s1" true 0).1 = .ok ("s1", mode)
            ∧ ((api_record_start ⟨[], []⟩ ⟨some "Audio/MP4;codecs=avc", none, none, none⟩ "s1" true 0).2).sessions.lookup "s1" =
                some { mime_type := pyOrStr "audio/mp4" "audio/webm", mode := mode,
                       language := normalize_language none,
                       target_lang := normalize_language none, created_at := 0 }
            ∧ ((api_record_start ⟨[], []⟩ ⟨some "Audio/MP4;codecs=avc", none, none, none⟩ "s1" true 0).2).files.lookup "s1" = some []
            ∧ ∀ k, k ≠ "s1" →
                ((api_record_start ⟨[], []⟩ ⟨some "Audio/MP4;codecs=avc", none, none, none⟩ "s1" true 0).2).sessions.lookup k =
                    (⟨[], []⟩ : ServerState).sessions.lookup k
                ∧ ((api_record_start ⟨[], []⟩ ⟨some "Audio/MP4;codecs=avc", none, none, none⟩ "s1" true 0).2).files.lookup k =
                    (⟨[], []⟩ : ServerState).files.lookup k)) :=
  ⟨by decide,
   C5_mime_allowlist ⟨[], []⟩ ⟨some "Audio/MP4;codecs=avc", none, none, none⟩ "s1" 0
     "audio/mp4" (by decide)⟩

/-- C10: a start call whose mime type is absent, empty, or normalizes to
the empty string is not rejected: it defaults to `audio/webm` and (absent
storage errors) creates a session carrying mime type `audio/webm`;
moreover, with a healthy storage path, a start call fails only when the
normalized mime type is non-empty and outside the allow-list. -/
theorem C10_empty_mime_defaults
    (st : ServerState) (payload : StartPayload) (sid : String) (now : Nat)
    (hempty : normalize_mime_type payload.mime_type = "")
    (hfresh : st.sessions.lookup sid = none) :
    (∃ mode, (api_record_start st payload sid true now).1 = .ok (sid, mode)
      ∧ ((api_record_start st payload sid true now).2).sessions.lookup sid =
          some { mime_type := "audio/webm", mode := mode,
                 language := normalize_language payload.language,
                 target_lang := normalize_language payload.target_lang,
                 created_at := now })
    ∧ (∀ payload' e,
        (api_record_start st payload' sid true now).1 = .error e →
          normalize_mime_type payload'.mime_type ≠ ""
          ∧ normalize_mime_type payload'.mime_type ∉ ALLOWED_MIME_TYPES) := by
  constructor
  · have hwebm : pyOrStr (normalize_mime_type payload.mime_type) "audio/webm"
        ∈ ALLOWED_MIME_TYPES := by
      rw [hempty]; decide
    obtain ⟨mode, h1, h2, _, _⟩ := start_creates_session st payload sid now hwebm hfresh
    exact ⟨mode, h1, by simpa [pyOrStr, hempty] using h2⟩
  · intro payload' e herr
    by_cases hmem : pyOrStr (normalize_mime_type payload'.mime_type) "audio/webm"
        ∈ ALLOWED_MIME_TYPES
    · exfalso
      simp [api_record_start, hmem] at herr
    · by_cases hne : normalize_mime_type payload'.mime_type = ""
      · exfalso
        apply hmem
        simp [hne, pyOrStr]
        decide
      · exact ⟨hne, by simpa [pyOrStr, hne] using hmem⟩

/-- Witness for `C10_empty_mime_defaults`: an absent mime type on the empty
store. -/
theorem C10_empty_mime_defaults_witness :
    (normalize_mime_type (none : Option String) = ""
      ∧ (⟨[], []⟩ : ServerState).sessions.lookup "s1" = none)
    ∧ ((∃ mode, (api_record_start ⟨[], []⟩ ⟨none, none, none, none⟩ "s1" true 0).1 = .ok ("s1", mode)
        ∧ ((api_record_start ⟨[], []⟩ ⟨none, none, none, none⟩ "s1" true 0).2).sessions.lookup "s1" =
            some { mime_type := "audio/webm", mode := mode,
                   language := normalize_language none,
                   target_lang := normalize_language none, created_at := 0 })
      ∧ (∀ payload' e,
          (api_record_start ⟨[], []⟩ payload' "s1" true 0).1 = .error e →
            normalize_mime_type payload'.mime_type ≠ ""
            ∧ normalize_mime_type payload'.mime_type ∉ ALLOWED_MIME_TYPES)) :=
  ⟨⟨by decide, by decide⟩,
   C10_empty_mime_defaults ⟨[], []⟩ ⟨none, none, none, none⟩ "s1" 0
     (by decide) (by decide)⟩

/-- Resetting the `finalizing` flag of a session whose flag is already
false gives the session back. -/
theorem reset_finalizing (s : RecordingSession) (h : s.finalizing = false) :
    { s with finalizing := false } = s := by
  cases s
  simp_all

/-- `duration_seconds` is non-negative. -/
theorem duration_seconds_nonneg (frames rate : Nat) :
    0 ≤ duration_seconds frames rate := by
  unfold duration_seconds
  positivity

/-- Truncation toward zero of a non-negative rational is non-negative. -/
theorem pyTruncInt_nonneg (q : Rat) (h : 0 ≤ q) : 0 ≤ pyTruncInt q :=
  Int.tdiv_nonneg (Rat.num_nonneg.2 h) (by positivity)

/-- C3: a finalize on a session whose `finalizing` flag is already set
fails with `already_finalizing` (409) and changes nothing — regardless of
the settings and of every external outcome; a finalize on a session whose
flag is unset passes the guard, which commits the flag set to true to the
store, so that running the guard again on the resulting state (what a
racing second call would do under the lock) fails with
`already_finalizing`: at most one of two racing finalize calls proceeds
past the guard. -/
theorem C3_finalize_guard
    (st : ServerState) (sid : String) (pm pl pt : Option String)
    (session : RecordingSession)
    (htrim : pyStrip sid = sid) (hne : sid ≠ "")
    (hsess : st.sessions.lookup sid = some session) :
    (session.finalizing = true →
      ∀ settings oracle,
        api_record_finalize st ⟨some sid, pm, pl, pt⟩ settings oracle =
          ⟨.error ⟨"already_finalizing",
            "Recording session is already being processed", 409⟩, st, false, false⟩)
    ∧ (session.finalizing = false →
      ∃ st',
        finalizeGuard st ⟨some sid, pm, pl, pt⟩ =
          .ok (sid, { session with finalizing := true }, st')
        ∧ st'.sessions.lookup sid = some { session with finalizing := true }
        ∧ st'.files = st.files
        ∧ finalizeGuard st' ⟨some sid, pm, pl, pt⟩ =
            .error ⟨"already_finalizing",
              "Recording session is already being processed", 409⟩) := by
  constructor
  · intro hfin settings oracle
    simp [api_record_finalize, finalizeGuard, htrim, hne, hsess, hfin]
  · intro hfin
    refine ⟨⟨setKey st.sessions sid { session with finalizing := true }, st.files⟩,
      ?_, ?_, rfl, ?_⟩
    · simp [finalizeGuard, htrim, hne, hsess, hfin]
    · exact lookup_setKey_self ..
    · simp [finalizeGuard, htrim, hne, lookup_setKey_self]

/-- Witness for `C3_finalize_guard` on the one-session state `stW` (whose
session is not finalizing). -/
theorem C3_finalize_guard_witness :
    (pyStrip "A" = "A" ∧ "A" ≠ "" ∧ stW.sessions.lookup "A" = some sessW)
    ∧ ((sessW.finalizing = true →
        ∀ settings oracle,
          api_record_finalize stW ⟨some "A", none, none, none⟩ settings oracle =
            ⟨.error ⟨"already_finalizing",
              "Recording session is already being processed", 409⟩, stW, false, false⟩)
      ∧ (sessW.finalizing = false →
        ∃ st',
          finalizeGuard stW ⟨some "A", none, none, none⟩ =
            .ok ("A", { sessW with finalizing := true }, st')
          ∧ st'.sessions.lookup "A" = some { sessW with finalizing := true }
          ∧ st'.files = stW.files
          ∧ finalizeGuard st' ⟨some "A", none, none, none⟩ =
              .error ⟨"already_finalizing",
                "Recording session is already being processed", 409⟩)) :=
  ⟨⟨by decide, by decide, by decide⟩,
   C3_finalize_guard stW "A" none none none sessW (by decide) (by decide) (by decide)⟩

/-- Every run of the finalize body either tears the session down
(success, or a terminal failure with a status other than 502) or preserves
it with the `finalizing` flag reset (exactly the 502 remote-service
failures of transcription or translation). -/
theorem finalizeBody_cleanup_or_preserve (st : ServerState) (sid : String)
    (session : RecordingSession) (payload : FinalizePayload) (settings : String)
    (oracle : FinalizeOracle) :
    ((finalizeBody st sid session payload settings oracle).state = cleanupStateOf st sid
      ∧ ((∃ r, (finalizeBody st sid session payload settings oracle).result = .ok r)
        ∨ ∃ e, (finalizeBody st sid session payload settings oracle).result = .error e
            ∧ e.status ≠ 502))
    ∨ ((finalizeBody st sid session payload settings oracle).state =
          preserveStateOf st sid session
      ∧ ∃ e, (finalizeBody st sid session payload settings oracle).result = .error e
          ∧ e.status = 502
          ∧ (e.code = "transcription_failed" ∨ e.code = "translation_failed")) := by
  unfold finalizeBody
  dsimp only
  repeat' split
  all_goals simp

/-- C2: for every finalize call that passes the finalizing guard, a
successful return or a terminal failure (any error whose status is not
502: empty recording, missing file, invalid audio, decode error, duration
over the limit, transcription validation failure) removes the session from
the store and deletes its storage; a retryable remote-service failure (the
502 `transcription_failed` / `translation_failed` errors) preserves the
session with its `finalizing` flag reset to false and its storage intact,
so a later finalize on the same session id passes the guard again. -/
theorem C2_finalize_dual_cleanup
    (st : ServerState) (sid : String) (pm pl pt : Option String)
    (settings : String) (oracle : FinalizeOracle) (session : RecordingSession)
    (htrim : pyStrip sid = sid) (hne : sid ≠ "")
    (hsess : st.sessions.lookup sid = some session)
    (hfin : session.finalizing = false) :
    (∀ r,
      (api_record_finalize st ⟨some sid, pm, pl, pt⟩ settings oracle).result = .ok r →
        (api_record_finalize st ⟨some sid, pm, pl, pt⟩ settings oracle).state.sessions.lookup sid = none
        ∧ (api_record_finalize st ⟨some sid, pm, pl, pt⟩ settings oracle).state.files.lookup sid = none)
    ∧ (∀ e,
      (api_record_finalize st ⟨some sid, pm, pl, pt⟩ settings oracle).result = .error e →
      e.status ≠ 502 →
        (api_record_finalize st ⟨some sid, pm, pl, pt⟩ settings oracle).state.sessions.lookup sid = none
        ∧ (api_record_finalize st ⟨some sid, pm, pl, pt⟩ settings oracle).state.files.lookup sid = none)
    ∧ (∀ e,
      (api_record_finalize st ⟨some sid, pm, pl, pt⟩ settings oracle).result = .error e →
      e.status = 502 →
        (e.code = "transcription_failed" ∨ e.code = "translation_failed")
        ∧ (api_record_finalize st ⟨some sid, pm, pl, pt⟩ settings oracle).state.sessions.lookup sid = some session
        ∧ (api_record_finalize st ⟨some sid, pm, pl, pt⟩ settings oracle).state.files.lookup sid = st.files.lookup sid
        ∧ ∃ st2,
            finalizeGuard (api_record_finalize st ⟨some sid, pm, pl, pt⟩ settings oracle).state
              ⟨some sid, pm, pl, pt⟩ =
              .ok (sid, { session with finalizing := true }, st2)) := by
  have hguard : api_record_finalize st ⟨some sid, pm, pl, pt⟩ settings oracle =
      finalizeBody ⟨setKey st.sessions sid { session with finalizing := true }, st.files⟩
        sid { session with finalizing := true } ⟨some sid, pm, pl, pt⟩ settings oracle := by
    simp [api_record_finalize, finalizeGuard, htrim, hne, hsess, hfin]
  have hform : { { session with finalizing := true } with finalizing := false } = session := by
    cases session
    simp_all
  rw [hguard]
  rcases finalizeBody_cleanup_or_preserve
      ⟨setKey st.sessions sid { session with finalizing := true }, st.files⟩
      sid { session with finalizing := true } ⟨some sid, pm, pl, pt⟩ settings oracle with
    ⟨hstate, hres⟩ | ⟨hstate, e0, he0, hst0, hcode0⟩
  · refine ⟨?_, ?_, ?_⟩
    · intro r _
      constructor <;> simp [hstate, cleanupStateOf, lookup_eraseKey_self]
    · intro e _ _
      constructor <;> simp [hstate, cleanupStateOf, lookup_eraseKey_self]
    · intro e he h502
      rcases hres with ⟨r, hr⟩ | ⟨e', he', hst'⟩
      · rw [he] at hr; cases hr
      · rw [he] at he'
        cases he'
        exact absurd h502 hst'
  · refine ⟨?_, ?_, ?_⟩
    · intro r hr
      rw [he0] at hr; cases hr
    · intro e he h502
      rw [he0] at he
      cases he
      exact absurd hst0 h502
    · intro e he _
      rw [he0] at he
      cases he
      refine ⟨hcode0, ?_, ?_, ?_⟩
      · simp [hstate, preserveStateOf, lookup_setKey_self, hform]
      · simp [hstate, preserveStateOf]
      · rw [hstate]
        simp [preserveStateOf, finalizeGuard, htrim, hne,
          lookup_setKey_self, hform, hfin]

/-- Witness for `C2_finalize_dual_cleanup` on the one-session state `stF`
with a concrete oracle whose transcription raises a non-validation
(remote) error. -/
theorem C2_finalize_dual_cleanup_witness :
    (pyStrip "A" = "A" ∧ "A" ≠ "" ∧ stF.sessions.lookup "A" = some sessF
      ∧ sessF.finalizing = false)
    ∧ ((∀ r,
        (api_record_finalize stF ⟨some "A", none, none, none⟩ ""
            ⟨true, .ok 16000 16000, .otherError "boom", .ok "U"⟩).result = .ok r →
          (api_record_finalize stF ⟨some "A", none, none, none⟩ ""
            ⟨true, .ok 16000 16000, .otherError "boom", .ok "U"⟩).state.sessions.lookup "A" = none
          ∧ (api_record_finalize stF ⟨some "A", none, none, none⟩ ""
            ⟨true, .ok 16000 16000, .otherError "boom", .ok "U"⟩).state.files.lookup "A" = none)
      ∧ (∀ e,
        (api_record_finalize stF ⟨some "A", none, none, none⟩ ""
            ⟨true, .ok 16000 16000, .otherError "boom", .ok "U"⟩).result = .error e →
        e.status ≠ 502 →
          (api_record_finalize stF ⟨some "A", none, none, none⟩ ""
            ⟨true, .ok 16000 16000, .otherError "boom", .ok "U"⟩).state.sessions.lookup "A" = none
          ∧ (api_record_finalize stF ⟨some "A", none, none, none⟩ ""
            ⟨true, .ok 16000 16000, .otherError "boom", .ok "U"⟩).state.files.lookup "A" = none)
      ∧ (∀ e,
        (api_record_finalize stF ⟨some "A", none, none, none⟩ ""
            ⟨true, .ok 16000 16000, .otherError "boom", .ok "U"⟩).result = .error e →
        e.status = 502 →
          (e.code = "transcription_failed" ∨ e.code = "translation_failed")
          ∧ (api_record_finalize stF ⟨some "A", none, none, none⟩ ""
              ⟨true, .ok 16000 16000, .otherError "boom", .ok "U"⟩).state.sessions.lookup "A" = some sessF
          ∧ (api_record_finalize stF ⟨some "A", none, none, none⟩ ""
              ⟨true, .ok 16000 16000, .otherError "boom", .ok "U"⟩).state.files.lookup "A" = stF.files.lookup "A"
          ∧ ∃ st2,
              finalizeGuard (api_record_finalize stF ⟨some "A", none, none, none⟩ ""
                  ⟨true, .ok 16000 16000, .otherError "boom", .ok "U"⟩).state
                ⟨some "A", none, none, none⟩ =
                .ok ("A", { sessF with finalizing := true }, st2))) :=
  ⟨⟨by decide, by decide, by decide, by decide⟩,
   C2_finalize_dual_cleanup stF "A" none none none ""
     ⟨true, .ok 16000 16000, .otherError "boom", .ok "U"⟩ sessF
     (by decide) (by decide) (by decide) (by decide)⟩

/-- C4: a finalize whose accumulated bytes decode to audio whose computed
duration exceeds `MAX_AUDIO_DURATION_SECONDS` (120 s) fails with the
audio-too-long error (`invalid_audio`, message "Audio duration exceeds the
2 minute limit", 400), the session and its storage are cleaned up, and
neither the transcription nor the translation remote service is
invoked. -/
theorem C4_duration_enforcement
    (st : ServerState) (sid : String) (pm pl pt : Option String)
    (settings : String) (oracle : FinalizeOracle)
    (session : RecordingSession) (frames rate : Nat)
    (htrim : pyStrip sid = sid) (hne : sid ≠ "")
    (hsess : st.sessions.lookup sid = some session)
    (hfin : session.finalizing = false)
    (hchunks : session.chunk_count ≠ 0) (hbytes : session.total_bytes ≠ 0)
    (hread : oracle.readOk = true)
    (hfile : (st.files.lookup sid).getD [] ≠ [])
    (hdec : oracle.decode = .ok frames rate)
    (hdur : duration_seconds frames rate > (MAX_AUDIO_DURATION_SECONDS : Rat)) :
    (api_record_finalize st ⟨some sid, pm, pl, pt⟩ settings oracle).result =
        .error ⟨"invalid_audio", "Audio duration exceeds the 2 minute limit", 400⟩
    ∧ (api_record_finalize st ⟨some sid, pm, pl, pt⟩ settings oracle).calledTranscribe = false
    ∧ (api_record_finalize st ⟨some sid, pm, pl, pt⟩ settings oracle).calledTranslate = false
    ∧ (api_record_finalize st ⟨some sid, pm, pl, pt⟩ settings oracle).state.sessions.lookup sid = none
    ∧ (api_record_finalize st ⟨some sid, pm, pl, pt⟩ settings oracle).state.files.lookup sid = none := by
  have hguard : api_record_finalize st ⟨some sid, pm, pl, pt⟩ settings oracle =
      finalizeBody ⟨setKey st.sessions sid { session with finalizing := true }, st.files⟩
        sid { session with finalizing := true } ⟨some sid, pm, pl, pt⟩ settings oracle := by
    simp [api_record_finalize, finalizeGuard, htrim, hne, hsess, hfin]
  rw [hguard]
  simp [finalizeBody, prepare_wav_and_duration, hchunks, hbytes, hread, hfile, hdec,
    hdur, cleanupStateOf, lookup_eraseKey_self]

/-- Witness for `C4_duration_enforcement`: 121 frames at 1 Hz decode to a
duration of 121 s > 120 s. -/
theorem C4_duration_enforcement_witness :
    (pyStrip "A" = "A" ∧ "A" ≠ "" ∧ stF.sessions.lookup "A" = some sessF
      ∧ sessF.finalizing = false ∧ sessF.chunk_count ≠ 0 ∧ sessF.total_bytes ≠ 0
      ∧ (FinalizeOracle.mk true (.ok 121 1) (.ok "T") (.ok "U")).readOk = true
      ∧ ((stF.files.lookup "A").getD [] ≠ [])
      ∧ (FinalizeOracle.mk true (.ok 121 1) (.ok "T") (.ok "U")).decode = .ok 121 1
      ∧ duration_seconds 121 1 > (MAX_AUDIO_DURATION_SECONDS : Rat))
    ∧ ((api_record_finalize stF ⟨some "A", none, none, none⟩ ""
          ⟨true, .ok 121 1, .ok "T", .ok "U"⟩).result =
        .error ⟨"invalid_audio", "Audio duration exceeds the 2 minute limit", 400⟩
      ∧ (api_record_finalize stF ⟨some "A", none, none, none⟩ ""
          ⟨true, .ok 121 1, .ok "T", .ok "U"⟩).calledTranscribe = false
      ∧ (api_record_finalize stF ⟨some "A", none, none, none⟩ ""
          ⟨true, .ok 121 1, .ok "T", .ok "U"⟩).calledTranslate = false
      ∧ (api_record_finalize stF ⟨some "A", none, none, none⟩ ""
          ⟨true, .ok 121 1, .ok "T", .ok "U"⟩).state.sessions.lookup "A" = none
      ∧ (api_record_finalize stF ⟨some "A", none, none, none⟩ ""
          ⟨true, .ok 121 1, .ok "T", .ok "U"⟩).state.files.lookup "A" = none) :=
  ⟨⟨by decide, by decide, by decide, by decide, by decide, by decide, by decide,
    by decide, by decide, by norm_num [duration_seconds, MAX_AUDIO_DURATION_SECONDS]⟩,
   C4_duration_enforcement stF "A" none none none ""
     ⟨true, .ok 121 1, .ok "T", .ok "U"⟩ sessF 121 1
     (by decide) (by decide) (by decide) (by decide) (by decide) (by decide)
     (by decide) (by decide) (by decide)
     (by norm_num [duration_seconds, MAX_AUDIO_DURATION_SECONDS])⟩

/-- C9: when finalize resolves the mode to "translate" but no target
language is resolvable (none in the payload, none on the session, empty
settings default — i.e. the resolved code is empty), finalize still
succeeds: the translation service is never invoked and the payload omits
`translatedText`. -/
theorem C9_translate_without_target
    (st : ServerState) (sid : String) (pm pl pt : Option String)
    (settings : String) (oracle : FinalizeOracle)
    (session : RecordingSession) (frames rate : Nat) (t : String)
    (htrim : pyStrip sid = sid) (hne : sid ≠ "")
    (hsess : st.sessions.lookup sid = some session)
    (hfin : session.finalizing = false)
    (hchunks : session.chunk_count ≠ 0) (hbytes : session.total_bytes ≠ 0)
    (hread : oracle.readOk = true)
    (hfile : (st.files.lookup sid).getD [] ≠ [])
    (hdec : oracle.decode = .ok frames rate)
    (hdurle : duration_seconds frames rate ≤ (MAX_AUDIO_DURATION_SECONDS : Rat))
    (htrans : oracle.transcription = .ok t)
    (hmode : resolveMode pm session.mode = "translate")
    (hcode : resolveTargetCode pt session.target_lang settings = "") :
    (api_record_finalize st ⟨some sid, pm, pl, pt⟩ settings oracle).result =
        .ok ⟨sid, "translate", t, pyTruncInt (duration_seconds frames rate * 1000), none⟩
    ∧ (api_record_finalize st ⟨some sid, pm, pl, pt⟩ settings oracle).calledTranslate = false
    ∧ (api_record_finalize st ⟨some sid, pm, pl, pt⟩ settings oracle).state.sessions.lookup sid = none
    ∧ (api_record_finalize st ⟨some sid, pm, pl, pt⟩ settings oracle).state.files.lookup sid = none := by
  have hguard : api_record_finalize st ⟨some sid, pm, pl, pt⟩ settings oracle =
      finalizeBody ⟨setKey st.sessions sid { session with finalizing := true }, st.files⟩
        sid { session with finalizing := true } ⟨some sid, pm, pl, pt⟩ settings oracle := by
    simp [api_record_finalize, finalizeGuard, htrim, hne, hsess, hfin]
  have hnd : ¬ (duration_seconds frames rate > (MAX_AUDIO_DURATION_SECONDS : Rat)) :=
    not_lt.mpr hdurle
  rw [hguard]
  simp [finalizeBody, prepare_wav_and_duration, hchunks, hbytes, hread, hfile, hdec,
    hnd, htrans, hmode, hcode, cleanupStateOf, lookup_eraseKey_self]

/-- Witness for `C9_translate_without_target`: payload mode "translate",
no target language anywhere, empty settings default. -/
theorem C9_translate_without_target_witness :
    (pyStrip "A" = "A" ∧ "A" ≠ "" ∧ stF.sessions.lookup "A" = some sessF
      ∧ sessF.finalizing = false ∧ sessF.chunk_count ≠ 0 ∧ sessF.total_bytes ≠ 0
      ∧ (FinalizeOracle.mk true (.ok 16000 16000) (.ok "T") (.ok "U")).readOk = true
      ∧ ((stF.files.lookup "A").getD [] ≠ [])
      ∧ (FinalizeOracle.mk true (.ok 16000 16000) (.ok "T") (.ok "U")).decode = .ok 16000 16000
      ∧ duration_seconds 16000 16000 ≤ (MAX_AUDIO_DURATION_SECONDS : Rat)
      ∧ (FinalizeOracle.mk true (.ok 16000 16000) (.ok "T") (.ok "U")).transcription = .ok "T"
      ∧ resolveMode (some "translate") sessF.mode = "translate"
      ∧ resolveTargetCode none sessF.target_lang "" = "")
    ∧ ((api_record_finalize stF ⟨some "A", some "translate", none, none⟩ ""
          ⟨true, .ok 16000 16000, .ok "T", .ok "U"⟩).result =
        .ok ⟨"A", "translate", "T", pyTruncInt (duration_seconds 16000 16000 * 1000), none⟩
      ∧ (api_record_finalize stF ⟨some "A", some "translate", none, none⟩ ""
          ⟨true, .ok 16000 16000, .ok "T", .ok "U"⟩).calledTranslate = false
      ∧ (api_record_finalize stF ⟨some "A", some "translate", none, none⟩ ""
          ⟨true, .ok 16000 16000, .ok "T", .ok "U"⟩).state.sessions.lookup "A" = none
      ∧ (api_record_finalize stF ⟨some "A", some "translate", none, none⟩ ""
          ⟨true, .ok 16000 16000, .ok "T", .ok "U"⟩).state.files.lookup "A" = none) :=
  ⟨⟨by decide, by decide, by decide, by decide, by decide, by decide, by decide,
    by decide, by decide, by norm_num [duration_seconds, MAX_AUDIO_DURATION_SECONDS],
    by decide, by decide, by decide⟩,
   C9_translate_without_target stF "A" (some "translate") none none ""
     ⟨true, .ok 16000 16000, .ok "T", .ok "U"⟩ sessF 16000 16000 "T"
     (by decide) (by decide) (by decide) (by decide) (by decide) (by decide)
     (by decide) (by decide) (by decide)
     (by norm_num [duration_seconds, MAX_AUDIO_DURATION_SECONDS])
     (by decide) (by decide) (by decide)⟩

/-- C7: a finalize call under exactly the conditions that make it succeed
(counters non-zero, readable non-empty storage, decode within the duration
limit, transcription ok, and translation ok whenever it is actually
attempted) returns a payload carrying the session id, the resolved mode,
the transcript text, `durationMs` equal to the truncation of the decoded
duration times 1000 (hence non-negative), and a `translatedText` field
exactly when the translation service was invoked; afterwards the session's
storage is deleted and the id is gone from the store, so a subsequent
finalize or (well-formed) append on that id fails with `unknown_session`
(404). -/
theorem C7_finalize_success
    (st : ServerState) (sid : String) (pm pl pt : Option String)
    (settings : String) (oracle : FinalizeOracle)
    (session : RecordingSession) (frames rate : Nat) (t : String)
    (htrim : pyStrip sid = sid) (hne : sid ≠ "")
    (hsess : st.sessions.lookup sid = some session)
    (hfin : session.finalizing = false)
    (hchunks : session.chunk_count ≠ 0) (hbytes : session.total_bytes ≠ 0)
    (hread : oracle.readOk = true)
    (hfile : (st.files.lookup sid).getD [] ≠ [])
    (hdec : oracle.decode = .ok frames rate)
    (hdurle : duration_seconds frames rate ≤ (MAX_AUDIO_DURATION_SECONDS : Rat))
    (htrans : oracle.transcription = .ok t)
    (htl : resolveMode pm session.mode = "translate" →
      resolveTargetCode pt session.target_lang settings ≠ "" →
      ∃ u, oracle.translation = .ok u) :
    (∃ r, (api_record_finalize st ⟨some sid, pm, pl, pt⟩ settings oracle).result = .ok r
      ∧ r.session_id = sid
      ∧ r.mode = resolveMode pm session.mode
      ∧ r.text = t
      ∧ r.durationMs = pyTruncInt (duration_seconds frames rate * 1000)
      ∧ 0 ≤ r.durationMs
      ∧ r.translatedText.isSome =
          (api_record_finalize st ⟨some sid, pm, pl, pt⟩ settings oracle).calledTranslate)
    ∧ (api_record_finalize st ⟨some sid, pm, pl, pt⟩ settings oracle).state.sessions.lookup sid = none
    ∧ (api_record_finalize st ⟨some sid, pm, pl, pt⟩ settings oracle).state.files.lookup sid = none
    ∧ (∀ pm2 pl2 pt2 s2 o2,
        (api_record_finalize
          (api_record_finalize st ⟨some sid, pm, pl, pt⟩ settings oracle).state
          ⟨some sid, pm2, pl2, pt2⟩ s2 o2).result =
            .error ⟨"unknown_session", "Unknown recording session", 404⟩)
    ∧ (∀ d2 sv2 w2 q2, d2 ≠ [] → pyToInt (some sv2) = some q2 →
        (api_record_append
          (api_record_finalize st ⟨some sid, pm, pl, pt⟩ settings oracle).state
          ⟨some sid, some d2, some sv2⟩ w2).1 =
            .error ⟨"unknown_session", "Unknown recording session", 404⟩) := by
  have hguard : api_record_finalize st ⟨some sid, pm, pl, pt⟩ settings oracle =
      finalizeBody ⟨setKey st.sessions sid { session with finalizing := true }, st.files⟩
        sid { session with finalizing := true } ⟨some sid, pm, pl, pt⟩ settings oracle := by
    simp [api_record_finalize, finalizeGuard, htrim, hne, hsess, hfin]
  have hnd : ¬ (duration_seconds frames rate > (MAX_AUDIO_DURATION_SECONDS : Rat)) :=
    not_lt.mpr hdurle
  have hdm : 0 ≤ pyTruncInt (duration_seconds frames rate * 1000) :=
    pyTruncInt_nonneg _ (mul_nonneg (duration_seconds_nonneg frames rate) (by norm_num))
  have tailOf : ∀ S : ServerState, S.sessions.lookup sid = none →
      (∀ pm2 pl2 pt2 s2 o2,
        (api_record_finalize S ⟨some sid, pm2, pl2, pt2⟩ s2 o2).result =
          .error ⟨"unknown_session", "Unknown recording session", 404⟩)
      ∧ (∀ d2 sv2 w2 q2, (d2 : Bytes) ≠ [] → pyToInt (some sv2) = some q2 →
        (api_record_append S ⟨some sid, some d2, some sv2⟩ w2).1 =
          .error ⟨"unknown_session", "Unknown recording session", 404⟩) := by
    intro S h1
    constructor
    · intro pm2 pl2 pt2 s2 o2
      simp [api_record_finalize, finalizeGuard, htrim, hne, h1]
    · intro d2 sv2 w2 q2 hd2 hq2
      simp [api_record_append, htrim, hne, hd2, hq2, h1]
  by_cases hm : resolveMode pm session.mode = "translate"
  · by_cases hc : resolveTargetCode pt session.target_lang settings = ""
    · have hout : api_record_finalize st ⟨some sid, pm, pl, pt⟩ settings oracle =
          ⟨.ok ⟨sid, resolveMode pm session.mode, t,
              pyTruncInt (duration_seconds frames rate * 1000), none⟩,
           cleanupStateOf
             ⟨setKey st.sessions sid { session with finalizing := true }, st.files⟩ sid,
           true, false⟩ := by
        rw [hguard]
        simp [finalizeBody, prepare_wav_and_duration, hchunks, hbytes, hread, hfile,
          hdec, hnd, htrans, hm, hc]
      rw [hout]
      have hclean : (cleanupStateOf
          ⟨setKey st.sessions sid { session with finalizing := true }, st.files⟩
            sid).sessions.lookup sid = none := by
        simp [cleanupStateOf, lookup_eraseKey_self]
      obtain ⟨ht1, ht2⟩ := tailOf _ hclean
      exact ⟨⟨_, rfl, rfl, rfl, rfl, rfl, hdm, rfl⟩, hclean,
        by simp [cleanupStateOf, lookup_eraseKey_self], ht1, ht2⟩
    · obtain ⟨u, hu⟩ := htl hm hc
      have hout : api_record_finalize st ⟨some sid, pm, pl, pt⟩ settings oracle =
          ⟨.ok ⟨sid, resolveMode pm session.mode, t,
              pyTruncInt (duration_seconds frames rate * 1000), some u⟩,
           cleanupStateOf
             ⟨setKey st.sessions sid { session with finalizing := true }, st.files⟩ sid,
           true, true⟩ := by
        rw [hguard]
        simp [finalizeBody, prepare_wav_and_duration, hchunks, hbytes, hread, hfile,
          hdec, hnd, htrans, hm, hc, hu]
      rw [hout]
      have hclean : (cleanupStateOf
          ⟨setKey st.sessions sid { session with finalizing := true }, st.files⟩
            sid).sessions.lookup sid = none := by
        simp [cleanupStateOf, lookup_eraseKey_self]
      obtain ⟨ht1, ht2⟩ := tailOf _ hclean
      exact ⟨⟨_, rfl, rfl, rfl, rfl, rfl, hdm, rfl⟩, hclean,
        by simp [cleanupStateOf, lookup_eraseKey_self], ht1, ht2⟩
  · have hout : api_record_finalize st ⟨some sid, pm, pl, pt⟩ settings oracle =
        ⟨.ok ⟨sid, resolveMode pm session.mode, t,
            pyTruncInt (duration_seconds frames rate * 1000), none⟩,
         cleanupStateOf
           ⟨setKey st.sessions sid { session with finalizing := true }, st.files⟩ sid,
         true, false⟩ := by
      rw [hguard]
      simp [finalizeBody, prepare_wav_and_duration, hchunks, hbytes, hread, hfile,
        hdec, hnd, htrans, hm]
    rw [hout]
    have hclean : (cleanupStateOf
        ⟨setKey st.sessions sid { session with finalizing := true }, st.files⟩
          sid).sessions.lookup sid = none := by
      simp [cleanupStateOf, lookup_eraseKey_self]
    obtain ⟨ht1, ht2⟩ := tailOf _ hclean
    exact ⟨⟨_, rfl, rfl, rfl, rfl, rfl, hdm, rfl⟩, hclean,
      by simp [cleanupStateOf, lookup_eraseKey_self], ht1, ht2⟩

/-- Witness for `C7_finalize_success`: a translate-mode finalize with a
target language and a successful translation. -/
theorem C7_finalize_success_witness :
    (pyStrip "A" = "A" ∧ "A" ≠ "" ∧ stF.sessions.lookup "A" = some sessF
      ∧ sessF.finalizing = false ∧ sessF.chunk_count ≠ 0 ∧ sessF.total_bytes ≠ 0
      ∧ (FinalizeOracle.mk true (.ok 16000 16000) (.ok "Hello") (.ok "Hola")).readOk = true
      ∧ ((stF.files.lookup "A").getD [] ≠ [])
      ∧ (FinalizeOracle.mk true (.ok 16000 16000) (.ok "Hello") (.ok "Hola")).decode = .ok 16000 16000
      ∧ duration_seconds 16000 16000 ≤ (MAX_AUDIO_DURATION_SECONDS : Rat)
      ∧ (FinalizeOracle.mk true (.ok 16000 16000) (.ok "Hello") (.ok "Hola")).transcription = .ok "Hello"
      ∧ (resolveMode (some "translate") sessF.mode = "translate" →
          resolveTargetCode (some "es") sessF.target_lang "" ≠ "" →
          ∃ u, (FinalizeOracle.mk true (.ok 16000 16000) (.ok "Hello") (.ok "Hola")).translation = .ok u))
    ∧ ((∃ r, (api_record_finalize stF ⟨some "A", some "translate", none, some "es"⟩ ""
            ⟨true, .ok 16000 16000, .ok "Hello", .ok "Hola"⟩).result = .ok r
        ∧ r.session_id = "A"
        ∧ r.mode = resolveMode (some "translate") sessF.mode
        ∧ r.text = "Hello"
        ∧ r.durationMs = pyTruncInt (duration_seconds 16000 16000 * 1000)
        ∧ 0 ≤ r.durationMs
        ∧ r.translatedText.isSome =
            (api_record_finalize stF ⟨some "A", some "translate", none, some "es"⟩ ""
              ⟨true, .ok 16000 16000, .ok "Hello", .ok "Hola"⟩).calledTranslate)
      ∧ (api_record_finalize stF ⟨some "A", some "translate", none, some "es"⟩ ""
          ⟨true, .ok 16000 16000, .ok "Hello", .ok "Hola"⟩).state.sessions.lookup "A" = none
      ∧ (api_record_finalize stF ⟨some "A", some "translate", none, some "es"⟩ ""
          ⟨true, .ok 16000 16000, .ok "Hello", .ok "Hola"⟩).state.files.lookup "A" = none
      ∧ (∀ pm2 pl2 pt2 s2 o2,
          (api_record_finalize
            (api_record_finalize stF ⟨some "A", some "translate", none, some "es"⟩ ""
              ⟨true, .ok 16000 16000, .ok "Hello", .ok "Hola"⟩).state
            ⟨some "A", pm2, pl2, pt2⟩ s2 o2).result =
              .error ⟨"unknown_session", "Unknown recording session", 404⟩)
      ∧ (∀ d2 sv2 w2 q2, d2 ≠ [] → pyToInt (some sv2) = some q2 →
          (api_record_append
            (api_record_finalize stF ⟨some "A", some "translate", none, some "es"⟩ ""
              ⟨true, .ok 16000 16000, .ok "Hello", .ok "Hola"⟩).state
            ⟨some "A", some d2, some sv2⟩ w2).1 =
              .error ⟨"unknown_session", "Unknown recording session", 404⟩)) :=
  ⟨⟨by decide, by decide, by decide, by decide, by decide, by decide, by decide,
    by decide, by decide, by norm_num [duration_seconds, MAX_AUDIO_DURATION_SECONDS],
    by decide, fun _ _ => ⟨"Hola", rfl⟩⟩,
   C7_finalize_success stF "A" (some "translate") none (some "es") ""
     ⟨true, .ok 16000 16000, .ok "Hello", .ok "Hola"⟩ sessF 16000 16000 "Hello"
     (by decide) (by decide) (by decide) (by decide) (by decide) (by decide)
     (by decide) (by decide) (by decide)
     (by norm_num [duration_seconds, MAX_AUDIO_DURATION_SECONDS])
     (by decide) (fun _ _ => ⟨"Hola", rfl⟩)⟩

end Dictaite
